import Mathlib

/-!
Verification development for the AI-File-Processing repository
(schema-normalization core: value classifier, sampler, relationship
detector, field combiners, column mapper, row transformer, validator).

The JavaScript sources are embedded shallowly:
* JS strings are Lean `String`s; the character-level operations
  (`trim`, `toLowerCase`, `includes`, `split`, `replace`) are modelled
  by executable functions over `List Char` (exact for the ASCII data
  the pipeline handles).
* JS cell values are modelled by the inductive `JSValue`; numbers are
  modelled as exact rationals (`ℚ`), which is faithful for every
  comparison, floor and integrality test the code performs.
* `null` and `undefined` are both modelled by `JSValue.nul` — every
  embedded function treats the two identically.
* fallible operations return `Except`/`Option`.
-/

/-! ## JS string primitives -/

/-- The ASCII whitespace characters matched by the JS `\s` class and by
`String.prototype.trim` (space, tab, newline, carriage return, vertical
tab, form feed).  Non-ASCII whitespace is outside the modelled data. -/
def jsIsSpace (c : Char) : Bool :=
  c == ' ' || c == '\t' || c == '\n' || c == '\r' ||
  c == Char.ofNat 11 || c == Char.ofNat 12

/-- `String.prototype.trim` on the character list. -/
def jsTrimList (cs : List Char) : List Char :=
  ((cs.dropWhile jsIsSpace).reverse.dropWhile jsIsSpace).reverse

/-- `String.prototype.trim`. -/
def jsTrim (s : String) : String :=
  String.mk (jsTrimList s.data)

/-- `String.prototype.toLowerCase` (ASCII range). -/
def jsToLower (s : String) : String :=
  String.mk (s.data.map Char.toLower)

/-- Substring search over character lists (JS `String.prototype.includes`). -/
def subSearch (pat : List Char) : List Char → Bool
  | [] => pat.isEmpty
  | c :: rest => if pat.isPrefixOf (c :: rest) then true else subSearch pat rest

/-- JS `s.includes(pat)`. -/
def strContains (s pat : String) : Bool :=
  subSearch pat.data s.data

/-- JS `String(s)` of an apostrophe, used to build the validator's
message texts. -/
def apos : String :=
  String.mk [Char.ofNat 39]

/-- Join a list of strings with a separator (JS `Array.prototype.join`). -/
def joinWith (sep : String) : List String → String
  | [] => ""
  | [s] => s
  | s :: rest => s ++ sep ++ joinWith sep rest

/-- A JS "word" character for `\b` boundaries: `[A-Za-z0-9_]`. -/
def isWordChar (c : Char) : Bool :=
  c.isAlpha || c.isDigit || c == '_'

/-- The maximal word-character runs of a string.  A regex
`/\b(kw)\b/i` with an all-letter keyword `kw` matches exactly when one
of these runs (lower-cased) equals `kw`. -/
def wordRuns (s : String) : List String :=
  ((jsToLower s).split (fun c => !(isWordChar c))).filter (fun w => w ≠ "")

/-! ## JS number parsing (`parseFloat`, `parseInt`) -/

/-- Decimal value of a digit run (most significant first). -/
def digitsToNat (cs : List Char) : Nat :=
  cs.foldl (fun acc c => acc * 10 + (c.toNat - 48)) 0

/-- Hexadecimal digit test (for `parseInt` with a `0x` prefix). -/
def isHexDigit (c : Char) : Bool :=
  c.isDigit || ('a' ≤ c.toLower && c.toLower ≤ 'f')

/-- Hexadecimal value of a digit run. -/
def hexDigitsToNat (cs : List Char) : Nat :=
  cs.foldl (fun acc c =>
    acc * 16 + (if c.isDigit then c.toNat - 48 else c.toLower.toNat - 87)) 0

/-- JS `parseFloat`: skip leading whitespace, optional sign, then a
decimal significand with optional exponent; `none` models `NaN`.
`Infinity` is accepted by JS; it is modelled as `some 0` (only
definedness, never the value, is consumed by the embedded code). -/
def jsParseFloat (s : String) : Option ℚ :=
  let cs := s.data.dropWhile jsIsSpace
  let (sgn, cs) : ℚ × List Char :=
    match cs with
    | '-' :: t => (-1, t)
    | '+' :: t => (1, t)
    | _ => (1, cs)
  if "Infinity".data.isPrefixOf cs then some sgn
  else
    let (ipart, cs1) := cs.span Char.isDigit
    let (fpart, cs2) : List Char × List Char :=
      match cs1 with
      | '.' :: t => t.span Char.isDigit
      | _ => ([], cs1)
    if ipart.isEmpty && fpart.isEmpty then none
    else
      let mant : ℚ := (digitsToNat ipart : ℚ) +
        (digitsToNat fpart : ℚ) / ((10 : ℚ) ^ fpart.length)
      let expo : Int :=
        match cs2 with
        | 'e' :: t | 'E' :: t =>
          let (esgn, t') : Int × List Char :=
            match t with
            | '-' :: u => (-1, u)
            | '+' :: u => (1, u)
            | _ => (1, t)
          let (ed, _) := t'.span Char.isDigit
          if ed.isEmpty then 0 else esgn * (digitsToNat ed : Int)
        | _ => 0
      some (sgn * mant * (10 : ℚ) ^ expo)

/-- JS `parseInt` with no radix argument: skip leading whitespace,
optional sign, optional `0x`/`0X` prefix (hexadecimal), then digits;
`none` models `NaN`. -/
def jsParseInt (s : String) : Option Int :=
  let cs := s.data.dropWhile jsIsSpace
  let (sgn, cs) : Int × List Char :=
    match cs with
    | '-' :: t => (-1, t)
    | '+' :: t => (1, t)
    | _ => (1, cs)
  match cs with
  | '0' :: 'x' :: t | '0' :: 'X' :: t =>
    let (ds, _) := t.span isHexDigit
    if ds.isEmpty then none else some (sgn * (hexDigitsToNat ds : Int))
  | _ =>
    let (ds, _) := cs.span Char.isDigit
    if ds.isEmpty then none else some (sgn * (digitsToNat ds : Int))

/-! ## JS values and stringification -/

/-- A JS cell value as it reaches the embedded functions.
`nul` models both `null` and `undefined` (every embedded function
treats them identically).  Numbers are exact rationals.  `date`
carries the civil components of a JS `Date`. -/
inductive JSValue where
  | nul
  | str (s : String)
  | boolv (b : Bool)
  | num (q : ℚ)
  | date (y : Int) (m d : Nat)
deriving DecidableEq, Repr

/-- Decimal digits of `num / den` after the point, by long division
(`den` coprime to `num`, `num < den`).  Terminating expansions are
produced exactly; the fuel bound mirrors the 17 significant digits JS
ever prints. -/
def ratDecDigits : Nat → Nat → Nat → String
  | 0, _, _ => ""
  | _, 0, _ => ""
  | fuel + 1, num, den =>
    Nat.repr (num * 10 / den) ++ ratDecDigits fuel (num * 10 % den) den

/-- JS `String(n)` for a number modelled as a rational: integers print
exactly; non-integers print as sign, integer part, point, then the
division digits.  The output never contains a `/`. -/
def jsNumToString (q : ℚ) : String :=
  if q.den = 1 then toString q.num
  else
    (if q.num < 0 then "-" else "") ++
    Nat.repr (q.num.natAbs / q.den) ++ "." ++
    ratDecDigits 17 (q.num.natAbs % q.den) q.den

/-- JS `String(v)`.  The `date` branch abstracts the locale-dependent
`Date.prototype.toString`; no embedded function ever reaches it (cells
are pre-formatted to strings before classification). -/
def jsToString (v : JSValue) : String :=
  match v with
  | .nul => "null"
  | .str s => s
  | .boolv b => if b then "true" else "false"
  | .num q => jsNumToString q
  | .date y m d => toString m ++ "/" ++ toString d ++ "/" ++ toString y

/-! ## constants.js -/

/-- `STANDARD_COLUMNS` — the canonical 10-column schema, in order. -/
def STANDARD_COLUMNS : List String :=
  ["Date", "Name", "Age", "Address", "Gender", "Contact Number",
   "Product Purchased", "Amount", "Product Quantity", "Email"]

/-- `DATA_TYPE_PATTERNS.phone = /^[\+\d\s\-\(\)]{10,}$/`. -/
def phoneTest (s : String) : Bool :=
  s.data.length ≥ 10 &&
  s.data.all (fun c =>
    c == '+' || c.isDigit || jsIsSpace c || c == '-' || c == '(' || c == ')')

/-- Scanner for `DATA_TYPE_PATTERNS.email` after a matched `@` and one
further (non-newline) character: looks for a `.` followed by at least
one non-newline character, with only non-newline characters before it. -/
def emailSeekDot : List Char → Bool
  | [] => false
  | c :: rest =>
    if c == '\n' then false
    else if c == '.' then
      (match rest with
       | d :: _ => if d ≠ '\n' then true else emailSeekDot rest
       | [] => false)
    else emailSeekDot rest

/-- `DATA_TYPE_PATTERNS.email` continuation after a matched `@`:
the `.+\..+` tail. -/
def emailFromAt : List Char → Bool
  | [] => false
  | c :: rest => if c == '\n' then false else emailSeekDot rest

/-- `DATA_TYPE_PATTERNS.email = /@.+\..+/` (unanchored). -/
def emailSearch : List Char → Bool
  | [] => false
  | c :: rest =>
    if c == '@' then emailFromAt rest || emailSearch rest else emailSearch rest

/-- `DATA_TYPE_PATTERNS.email.test s`. -/
def emailTest (s : String) : Bool :=
  emailSearch s.data

/-- `DATA_TYPE_PATTERNS.currency = /^\$?[\d,]+\.?\d*$/`.  The character
class `[\d,]` and the following `\.` are disjoint, so the greedy parse
is exact. -/
def currencyTest (s : String) : Bool :=
  let cs := match s.data with
    | '$' :: t => t
    | l => l
  let (run1, rest1) := cs.span (fun c => c.isDigit || c == ',')
  if run1.isEmpty then false
  else
    let rest2 := match rest1 with
      | '.' :: t => t
      | l => l
    rest2.all Char.isDigit

/-- `DATA_TYPE_PATTERNS.dateISO = /^\d{4}-\d{2}-\d{2}/` (prefix match). -/
def dateISOTest (s : String) : Bool :=
  match s.data with
  | a :: b :: c :: d :: '-' :: e :: f :: '-' :: g :: h :: _ =>
    a.isDigit && b.isDigit && c.isDigit && d.isDigit &&
    e.isDigit && f.isDigit && g.isDigit && h.isDigit
  | _ => false

/-- `DATA_TYPE_PATTERNS.dateUS = /^\d{1,2}\/\d{1,2}\/\d{2,4}/`
(prefix match): one or two digits, `/`, one or two digits, `/`, then at
least two digits. -/
def dateUSTest (s : String) : Bool :=
  let (d1, r1) := s.data.span Char.isDigit
  if d1.length = 0 || d1.length > 2 then false
  else match r1 with
    | '/' :: t =>
      let (d2, r2) := t.span Char.isDigit
      if d2.length = 0 || d2.length > 2 then false
      else match r2 with
        | '/' :: u =>
          let (d3, _) := u.span Char.isDigit
          d3.length ≥ 2
        | _ => false
    | _ => false

/-- `DATA_TYPE_PATTERNS.dateEU = /^\d{1,2}-\d{1,2}-\d{4}/`
(prefix match). -/
def dateEUTest (s : String) : Bool :=
  let (d1, r1) := s.data.span Char.isDigit
  if d1.length = 0 || d1.length > 2 then false
  else match r1 with
    | '-' :: t =>
      let (d2, r2) := t.span Char.isDigit
      if d2.length = 0 || d2.length > 2 then false
      else match r2 with
        | '-' :: u =>
          let (d3, _) := u.span Char.isDigit
          d3.length ≥ 4
        | _ => false
    | _ => false

/-- `DATA_TYPE_PATTERNS.number = /^\d+$/`. -/
def numberTest (s : String) : Bool :=
  !s.data.isEmpty && s.data.all Char.isDigit

/-- `DATA_TYPE_PATTERNS.decimal = /^\d+\.\d+$/`. -/
def decimalTest (s : String) : Bool :=
  let (run1, rest1) := s.data.span Char.isDigit
  if run1.isEmpty then false
  else match rest1 with
    | '.' :: t => !t.isEmpty && t.all Char.isDigit
    | _ => false

/-- `NAME_COMPONENTS['First Name']` from constants.js. -/
def firstNameVariations : List String :=
  ["first name", "fname", "first", "given name", "forename",
   "first_name", "firstname", "givenname"]

/-- `NAME_COMPONENTS['Last Name']` from constants.js. -/
def lastNameVariations : List String :=
  ["last name", "lname", "last", "surname", "family name",
   "last_name", "lastname", "familyname", "family_name"]

/-- `NAME_COMPONENTS['Middle Name']` from constants.js. -/
def middleNameVariations : List String :=
  ["middle name", "mname", "middle", "middle initial", "mi",
   "middle_name", "middlename", "middle_initial"]

/-- `NAME_COMPONENTS` from constants.js (entry order is the JS object
insertion order). -/
def NAME_COMPONENTS : List (String × List String) :=
  [("First Name", firstNameVariations),
   ("Last Name", lastNameVariations),
   ("Middle Name", middleNameVariations)]

/-- `ADDRESS_COMPONENTS` from constants.js. -/
def ADDRESS_COMPONENTS : List (String × List String) :=
  [("Street",
    ["street", "address line 1", "address1", "street address",
     "road", "street name", "address_line_1", "address_1", "addr1"]),
   ("Apartment",
    ["apartment", "apt", "unit", "suite", "address line 2", "address2",
     "apt number", "unit number", "building", "floor", "address_line_2",
     "address_2", "addr2", "apartment_number"]),
   ("City",
    ["city", "town", "municipality", "locality", "city_name"]),
   ("State",
    ["state", "province", "region", "state/province", "st", "state_province"]),
   ("Country",
    ["country", "nation", "country code", "country name", "country_name",
     "country_code"]),
   ("Postal Code",
    ["zip", "postal", "postal code", "zip code", "postcode",
     "zipcode", "post code", "pincode", "pin", "postal_code",
     "zip_code", "post_code"])]

/-- `SEMANTIC_MAPPING_RULES['Address']` from constants.js. -/
def addressSemanticVariations : List String :=
  ["address", "full address", "complete address", "location", "addr",
   "full_address", "complete_address", "mailing address", "shipping address"]

/-! ## utils.js -/

/-- A cell filtered out by utils.js before type inference:
`val === null || val === undefined || val === ''`. -/
def isBlankCell (v : JSValue) : Bool :=
  v == JSValue.nul || v == JSValue.str ""

/-- The first value surviving the null/undefined/empty-string filter. -/
def firstNonBlankCell (values : List JSValue) : Option JSValue :=
  (values.filter (fun v => !(isBlankCell v))).head?

/-- The pattern cascade of `inferDataType` on
`String(nonEmptyValues[0]).trim()` — first match wins, in the source
order phone, email, currency (after stripping commas), dateISO, dateUS,
dateEU, integer, decimal, else string. -/
def classifyFirstValue (firstValue : String) : String :=
  if phoneTest firstValue then "phone"
  else if emailTest firstValue then "email"
  else if currencyTest (String.mk (firstValue.data.filter (fun c => c ≠ ',')))
    then "currency"
  else if dateISOTest firstValue then "date"
  else if dateUSTest firstValue then "date"
  else if dateEUTest firstValue then "date"
  else if numberTest firstValue then "number"
  else if decimalTest firstValue then "number"
  else "string"

/-- `inferDataType` from utils.js: discard null/undefined/empty values;
`empty` when nothing remains; otherwise classify the first survivor. -/
def inferDataType (values : List JSValue) : String :=
  if values.isEmpty then "empty"
  else
    match firstNonBlankCell values with
    | none => "empty"
    | some v0 => classifyFirstValue (jsTrim (jsToString v0))

/-- The interior of `calculateSampleIndices` from utils.js:
`remainingSamples = sampleSize - 2` interior indices stepped at
`Math.floor(totalRows / (remainingSamples + 1))`, keeping those below
`totalRows - 1`. -/
def sampleInterior (totalRows sampleSize : Nat) : List Nat :=
  if sampleSize - 2 > 0 then
    ((List.range (sampleSize - 2)).map
      (fun i => (i + 1) * (totalRows / (sampleSize - 2 + 1)))).filter
      (fun idx => idx < totalRows - 1)
  else []

/-- `calculateSampleIndices` continued: first index `0`, the interior
indices, and (when `totalRows > 1`) the last index, then the JS tail
`[...new Set(indices)].sort((a, b) => a - b)` — the ascending list of
the distinct pushed indices, which `insertionSort` of `dedup` computes. -/
def calculateSampleIndices (totalRows sampleSize : Nat) : List Nat :=
  if totalRows = 0 then []
  else if totalRows ≤ sampleSize then List.range totalRows
  else
    List.insertionSort (· ≤ ·)
      (0 :: sampleInterior totalRows sampleSize ++
        (if totalRows > 1 then [totalRows - 1] else [])).dedup

/-- `normalizeColumnName` from utils.js. -/
def normalizeColumnName (columnName : String) : String :=
  jsTrim (jsToLower columnName)

/-- `isExcelSerialDate` from utils.js:
`num > 0 && num < 100000 && (num % 1 !== 0 || (num >= 1 && num <= 50000))`
(`num % 1 !== 0` is the JS integrality test, i.e. the denominator of the
exact value is not 1). -/
def isExcelSerialDate (q : ℚ) : Bool :=
  decide (0 < q) && decide (q < 100000) &&
  (decide (q.den ≠ 1) || (decide ((1 : ℚ) ≤ q) && decide (q ≤ 50000)))

/-- Day number (days since 1970-01-01, proleptic Gregorian) of a civil
date, standard civil-from-days arithmetic.  Models the
`new Date(y, m-1, d).getTime() / 86400000` computation. -/
def daysFromCivil (y : Int) (m d : Nat) : Int :=
  let y' := if m ≤ 2 then y - 1 else y
  let era := Int.fdiv y' 400
  let yoe := (y' - era * 400).toNat
  let doy := (153 * (if m > 2 then m - 3 else m + 9) + 2) / 5 + d - 1
  let doe := yoe * 365 + yoe / 4 - yoe / 100 + doy
  era * 146097 + (doe : Int) - 719468

/-- Civil date `(year, month, day)` of a day number, the inverse
civil-from-days arithmetic.  Models `getFullYear`/`getMonth`/`getDate`
on a `Date` built from a millisecond count, under a fixed-offset clock
(a host timezone's daylight-saving shifts are outside the model). -/
def civilFromDays (z : Int) : Int × Nat × Nat :=
  let zs := z + 719468
  let era := Int.fdiv zs 146097
  let doe := (zs - era * 146097).toNat
  let yoe := (doe - doe / 1460 + doe / 36524 - doe / 146096) / 365
  let y := (yoe : Int) + era * 400
  let doy := doe - (365 * yoe + yoe / 4 - yoe / 100)
  let mp := (5 * doy + 2) / 153
  let d := doy - (153 * mp + 2) / 5 + 1
  let m := if mp < 10 then mp + 3 else mp - 9
  (if m ≤ 2 then y + 1 else y, m, d)

/-- `"M/D/YYYY"` rendering of a civil date (month and day unpadded, as
JS `getMonth() + 1`/`getDate()` produce). -/
def mdyString (c : Int × Nat × Nat) : String :=
  toString c.2.1 ++ "/" ++ toString c.2.2 ++ "/" ++ toString c.1

/-- `excelSerialToDate` from utils.js: the epoch is
`new Date(1899, 11, 30)` (December 30, 1899), `Math.floor(serial)` whole
days are added, and the result is formatted `M/D/YYYY`.  The
millisecond arithmetic of the source is exactly whole-day arithmetic. -/
def excelSerialToDate (serial : ℚ) : String :=
  mdyString (civilFromDays (daysFromCivil 1899 12 30 + Int.floor serial))

/-- `formatValue(value, columnHint)` from utils.js.  The
`try`/`catch` around the serial-date conversion is dropped: the
embedded conversion is total. -/
def formatValue (value : JSValue) (columnHint : String) : String :=
  match value with
  | .nul => ""
  | .str s => jsTrim s
  | .boolv b => if b then "true" else "false"
  | .date y m d => toString m ++ "/" ++ toString d ++ "/" ++ toString y
  | .num q =>
    let lowerHint := jsToLower columnHint
    let isDateColumn := strContains lowerHint "date" ||
      strContains lowerHint "time" || strContains lowerHint "timestamp"
    let isNumericColumn := strContains lowerHint "age" ||
      strContains lowerHint "amount" || strContains lowerHint "quantity" ||
      strContains lowerHint "price" || strContains lowerHint "cost" ||
      strContains lowerHint "qty" || strContains lowerHint "count" ||
      strContains lowerHint "number" || strContains lowerHint "units" ||
      strContains lowerHint "total"
    if isDateColumn && !isNumericColumn && isExcelSerialDate q then
      excelSerialToDate q
    else jsNumToString q

/-! ## addressParser.js -/

/-- Presence test for one address field in `consolidateAddressFields`:
`field && String(field).trim()` for a string argument. -/
def addrPresent (s : String) : Bool :=
  s ≠ "" && jsTrim s ≠ ""

/-- `consolidateAddressFields` from addressParser.js: push present
trimmed parts in source order (street, apartment, city, the
state-postal pair joined by `' '`, country) and join with `', '`. -/
def consolidateAddressFields (street apartment city state postal country : String) :
    String :=
  let parts :=
    (if addrPresent street then [jsTrim street] else []) ++
    (if addrPresent apartment then [jsTrim apartment] else []) ++
    (if addrPresent city then [jsTrim city] else [])
  let statePostal :=
    (if addrPresent state then [jsTrim state] else []) ++
    (if addrPresent postal then [jsTrim postal] else [])
  let parts := parts ++
    (if statePostal.length > 0 then [joinWith " " statePostal] else []) ++
    (if addrPresent country then [jsTrim country] else [])
  joinWith ", " parts

/-- The six-component record returned by `parseAddress`. -/
structure AddressRecord where
  street : String
  apartment : String
  city : String
  state : String
  postal : String
  country : String
deriving DecidableEq, Repr

/-- The all-empty `AddressRecord`. -/
def emptyAddressRecord : AddressRecord :=
  ⟨"", "", "", "", "", ""⟩

/-- Whitespace-separated tokens of a trimmed string
(JS `s.trim().split(/\s+/)` for non-blank `s`). -/
def wsTokens (s : String) : List String :=
  (((jsTrim s).data.splitOnP jsIsSpace).map String.mk).filter (fun t => t ≠ "")

/-- `parseStatePostal` from addressParser.js. -/
def parseStatePostal (statePostalStr : String) : String × String :=
  if statePostalStr = "" then ("", "")
  else
    let parts := wsTokens statePostalStr
    match parts with
    | [p] => if numberTest p then ("", p) else (p, "")
    | p :: ps =>
      let lastPart := (p :: ps).getLast (by simp)
      if numberTest lastPart then
        (joinWith " " ((p :: ps).dropLast), lastPart)
      else
        (joinWith " " (p :: ps), "")
    | [] => ("", "")

/-- The second-segment test of `parseAddress`:
`/^(apt|unit|suite|#|\d+[a-z]?)/i.test(secondPart) || secondPart.length < 10`.
As a prefix-only match, the `\d+[a-z]?` alternative holds exactly when
the segment starts with a digit. -/
def apartmentLike (secondPart : String) : Bool :=
  let lower := jsToLower secondPart
  "apt".data.isPrefixOf lower.data || "unit".data.isPrefixOf lower.data ||
  "suite".data.isPrefixOf lower.data || "#".data.isPrefixOf lower.data ||
  (match secondPart.data with
   | c :: _ => c.isDigit
   | [] => false) ||
  secondPart.data.length < 10

/-- `parseAddress` from addressParser.js: guard non-string/empty input,
split on commas, trim, drop blanks, then the position-based heuristics. -/
def parseAddress (combinedAddress : JSValue) : AddressRecord :=
  match combinedAddress with
  | .str s =>
    if s = "" then emptyAddressRecord
    else
      let parts := ((s.splitOn ",").map jsTrim).filter (fun p => p ≠ "")
      match parts with
      | [] => emptyAddressRecord
      | [p0] => { emptyAddressRecord with street := p0 }
      | p0 :: p1 :: rest =>
        if apartmentLike p1 then
          let city := rest.getD 0 ""
          let sp := if rest.length ≥ 2 then parseStatePostal (rest.getD 1 "") else ("", "")
          { street := p0, apartment := p1,
            city := if rest.length ≥ 1 then city else "",
            state := sp.1, postal := sp.2,
            country := if rest.length ≥ 3 then rest.getD 2 "" else "" }
        else
          let sp := if rest.length ≥ 1 then parseStatePostal (rest.getD 0 "") else ("", "")
          { street := p0, apartment := "", city := p1,
            state := sp.1, postal := sp.2,
            country := if rest.length ≥ 2 then rest.getD 1 "" else "" }
  | _ => emptyAddressRecord

/-- The address-keyword list of `looksLikeAddress`. -/
def addressKeywords : List String :=
  ["street", "st", "avenue", "ave", "road", "rd", "drive", "dr", "lane", "ln",
   "boulevard", "blvd", "way", "court", "ct", "place", "pl", "apt", "unit",
   "suite"]

/-- `looksLikeAddress` from addressParser.js, on a string cell
(non-strings and `''` are rejected by its guard):
`(keyword-with-word-boundaries && digit) || (comma && digit)`. -/
def looksLikeAddress (value : String) : Bool :=
  if value = "" then false
  else
    let hasAddressKeywords := (wordRuns value).any (fun w => addressKeywords.contains w)
    let hasNumbers := value.data.any Char.isDigit
    let hasCommas := value.data.contains ','
    (hasAddressKeywords && hasNumbers) || (hasCommas && hasNumbers)

/-! ## tools.js — analyzeColumnRelationships -/

/-- The result record of `analyzeColumnRelationships`. -/
structure RelationshipResult where
  hasNameSplit : Bool
  nameComponents : List (String × String)
  hasAddressSplit : Bool
  addressComponents : List (String × String)
  hasCombinedAddress : Bool
  combinedAddressColumn : Option String
deriving DecidableEq, Repr

/-- The name-component header test of tools.js:
`normalized === v || (normalized.includes(v) && normalized.length > v.length + 2)`. -/
def nameComponentMatches (variations : List String) (header : String) : Bool :=
  let normalized := normalizeColumnName header
  variations.any (fun v =>
    normalized == v ||
    (strContains normalized v && normalized.data.length > v.data.length + 2))

/-- First header matching one of the given name-component variations. -/
def findComponentHeader (variations : List String) (headers : List String) :
    Option String :=
  headers.find? (nameComponentMatches variations)

/-- The address-component header test of tools.js (no length guard):
`normalized === v || normalized.includes(v)`. -/
def addrComponentMatches (variations : List String) (header : String) : Bool :=
  let normalized := normalizeColumnName header
  variations.any (fun v => normalized == v || strContains normalized v)

/-- The combined-address header-name test of tools.js, against
`SEMANTIC_MAPPING_RULES['Address']`. -/
def isAddressColumn (header : String) : Bool :=
  let normalized := normalizeColumnName header
  addressSemanticVariations.any (fun v => normalized == v || strContains normalized v)

/-- The sampled values of column `i`: `sampleRows.map(row => row[i]).filter(Boolean)`
(a missing cell and an empty string are both falsy). -/
def sampleValuesAt (sampleRows : List (List String)) (i : Nat) : List String :=
  (sampleRows.map (fun row => row.getD i "")).filter (fun v => v ≠ "")

/-- `analyzeColumnRelationships` from tools.js (the pure relationship
record; the enclosing success envelope carries no further data).
The source reads `relationships.nameComponents['First Name']` and
`['Last Name']`; those dictionary entries are exactly the first-match
results for the two components, which are bound directly here. -/
def analyzeColumnRelationships (headers : List String)
    (sampleRows : List (List String)) : RelationshipResult :=
  let nameComponents := NAME_COMPONENTS.filterMap (fun cv =>
    (findComponentHeader cv.2 headers).map (fun h => (cv.1, h)))
  let hasFirstName := findComponentHeader firstNameVariations headers
  let hasLastName := findComponentHeader lastNameVariations headers
  let nameOk :=
    match hasFirstName, hasLastName with
    | some f, some l => f ≠ l
    | _, _ => false
  let addressComponents := ADDRESS_COMPONENTS.filterMap (fun cv =>
    (headers.find? (addrComponentMatches cv.2)).map (fun h => (cv.1, h)))
  let combined := (headers.enum.find? (fun p =>
    isAddressColumn p.2 && (sampleValuesAt sampleRows p.1).any looksLikeAddress))
  { hasNameSplit := nameOk
    nameComponents := if nameOk then nameComponents else []
    hasAddressSplit := !addressComponents.isEmpty
    addressComponents := addressComponents
    hasCombinedAddress := combined.isSome
    combinedAddressColumn := combined.map (fun p => p.2) }

/-! ## excelFunctions.js — createColumnMapping -/

/-- The distinguishable failure sites of `createColumnMapping`:
the non-object guard, and the missing-canonical-columns guard (the
`InvalidMapping` condition of the design). -/
inductive CMError where
  | invalidObject
  | missingRequired (cols : List String)
deriving DecidableEq, Repr

/-- The success payload of `createColumnMapping` (the generated
`mappingId` is an opaque fresh token from `Date.now()`/`Math.random()`
and is not modelled; the claims are about the validation outcome). -/
structure CMResult where
  mappedColumns : Nat
  unmappedColumns : Int
deriving DecidableEq, Repr

/-- `createColumnMapping` from excelFunctions.js, on an object modelled
as an association list with unique keys (JS object literals cannot
carry duplicate keys).  Missing canonical columns fail; otherwise the
mapping is stored and the truthy, non-blank values are counted. -/
def createColumnMapping (mapping : List (String × String)) :
    Except CMError CMResult :=
  let missingColumns := STANDARD_COLUMNS.filter (fun col =>
    !(mapping.any (fun kv => kv.1 == col)))
  if missingColumns.length > 0 then
    .error (.missingRequired missingColumns)
  else
    let mapped := ((mapping.map Prod.snd).filter
      (fun val => val ≠ "" && jsTrim val ≠ "")).length
    .ok { mappedColumns := mapped,
          unmappedColumns := (STANDARD_COLUMNS.length : Int) - mapped }

/-! ## excelFunctions.js — transformRows -/

/-- `sourceIndexMap[header]` of `transformRows`: JS object assignment
in a `forEach` lets the **last** occurrence of a duplicated header win. -/
def lastIndexOfHeader (headers : List String) (h : String) : Option Nat :=
  ((headers.enum.filter (fun p => p.2 == h)).getLast?).map (fun p => p.1)

/-- One output row of `transformRows`: for each canonical column in
schema order, an empty or blank (or absent) mapping entry emits `''`;
otherwise the source index is resolved by header name and the formatted
cell is emitted, `''` when the header is unknown or the row has no cell
there. -/
def transformRow (mapping : List (String × String)) (sourceHeaders : List String)
    (sourceRow : List JSValue) : List String :=
  STANDARD_COLUMNS.map (fun standardColumn =>
    match List.lookup standardColumn mapping with
    | none => ""
    | some sourceColumnName =>
      if sourceColumnName = "" || jsTrim sourceColumnName = "" then ""
      else
        match lastIndexOfHeader sourceHeaders sourceColumnName with
        | none => ""
        | some sourceIndex =>
          if sourceIndex < sourceRow.length then
            formatValue (sourceRow.getD sourceIndex JSValue.nul) sourceColumnName
          else "")

/-- `transformRows` from excelFunctions.js, after the stored mapping
has been resolved and the array-shape guards have passed (the claims
quantify over successful calls). -/
def transformRows (mapping : List (String × String))
    (sourceRows : List (List JSValue)) (sourceHeaders : List String) :
    List (List String) :=
  sourceRows.map (transformRow mapping sourceHeaders)

/-! ## excelFunctions.js — validateExcelMapping -/

/-- One issue/warning entry of the validation report. -/
structure VEntry where
  column : String
  issue : String
  affectedRows : List Nat
  severity : String
deriving DecidableEq, Repr

/-- The validation report. -/
structure ValidationResult where
  validationPassed : Bool
  issues : List VEntry
  warnings : List VEntry
deriving DecidableEq, Repr

/-- The per-row checks of `validateExcelMapping`, in source order,
returning (issues, warnings) contributed by row `rowIdx`. -/
def rowChecks (rowIdx : Nat) (row : List String) : List VEntry × List VEntry :=
  if row.length ≠ 10 then
    ([⟨"ALL",
       "Row " ++ toString rowIdx ++ " doesn" ++ apos ++
         "t have exactly 10 columns (has " ++ toString row.length ++ ")",
       [rowIdx], "error"⟩], [])
  else
    let email := row.getD 9 ""
    let emailW :=
      if email ≠ "" && jsTrim email ≠ "" && !emailTest email then
        [(⟨"Email",
          "Row " ++ toString rowIdx ++ ": \"" ++ email ++ "\" doesn" ++ apos ++
            "t look like a valid email",
          [rowIdx], "warning"⟩ : VEntry)]
      else []
    let phone := row.getD 5 ""
    let phoneW :=
      if phone ≠ "" && jsTrim phone ≠ "" && !phoneTest phone then
        [(⟨"Contact Number",
          "Row " ++ toString rowIdx ++ ": \"" ++ phone ++ "\" doesn" ++ apos ++
            "t match phone number pattern",
          [rowIdx], "warning"⟩ : VEntry)]
      else []
    let amount := row.getD 7 ""
    let amountI :=
      if amount ≠ "" && jsTrim amount ≠ "" then
        let cleanAmount := String.mk (amount.data.filter
          (fun c => !(c == '$' || c == ',')))
        if (jsParseFloat cleanAmount).isNone then
          [(⟨"Amount",
            "Row " ++ toString rowIdx ++ ": \"" ++ amount ++
              "\" is not a valid number",
            [rowIdx], "error"⟩ : VEntry)]
        else []
      else []
    let quantity := row.getD 8 ""
    let quantityW :=
      if quantity ≠ "" && jsTrim quantity ≠ "" && (jsParseInt quantity).isNone then
        [(⟨"Product Quantity",
          "Row " ++ toString rowIdx ++ ": \"" ++ quantity ++
            "\" is not a valid number",
          [rowIdx], "warning"⟩ : VEntry)]
      else []
    let age := row.getD 2 ""
    let ageW :=
      if age ≠ "" && jsTrim age ≠ "" then
        match jsParseInt age with
        | none =>
          [(⟨"Age",
            "Row " ++ toString rowIdx ++ ": \"" ++ age ++ "\" doesn" ++ apos ++
              "t look like a valid age",
            [rowIdx], "warning"⟩ : VEntry)]
        | some ageNum =>
          if ageNum < 0 || ageNum > 150 then
            [(⟨"Age",
              "Row " ++ toString rowIdx ++ ": \"" ++ age ++ "\" doesn" ++ apos ++
                "t look like a valid age",
              [rowIdx], "warning"⟩ : VEntry)]
          else []
      else []
    let gender := row.getD 4 ""
    let genderW :=
      if gender ≠ "" && jsTrim gender ≠ "" then
        let normalizedGender := String.mk ((jsTrim gender).data.map Char.toUpper)
        if normalizedGender = "M" || normalizedGender = "F" ||
           normalizedGender = "MALE" || normalizedGender = "FEMALE" then []
        else
          [(⟨"Gender",
            "Row " ++ toString rowIdx ++ ": \"" ++ gender ++
              "\" should be M, F, Male, or Female",
            [rowIdx], "warning"⟩ : VEntry)]
      else []
    (amountI, emailW ++ phoneW ++ quantityW ++ ageW ++ genderW)

/-- The grouping key of the warning-aggregation step:
`issue.split(':')[0]`, i.e. the characters before the first colon (the
whole string when there is no colon). -/
def issueKey (issue : String) : String :=
  String.mk (issue.data.takeWhile (fun c => c ≠ ':'))

/-- Merge one warning into the first accumulated entry with the same
column and the same `issueKey` (appending its affected rows), or append
it unchanged. -/
def mergeWarning (w : VEntry) : List VEntry → List VEntry
  | [] => [w]
  | e :: rest =>
    if e.column == w.column && issueKey e.issue == issueKey w.issue then
      { e with affectedRows := e.affectedRows ++ w.affectedRows } :: rest
    else e :: mergeWarning w rest

/-- The `warnings.reduce` aggregation of `validateExcelMapping`. -/
def aggregateWarnings (warnings : List VEntry) : List VEntry :=
  warnings.foldl (fun acc w => mergeWarning w acc) []

/-- `validateExcelMapping` from excelFunctions.js: guard the empty
sample, run the per-row checks, aggregate warnings, and report. -/
def validateExcelMapping (sampleData : List (List String)) :
    Except String ValidationResult :=
  if sampleData.isEmpty then
    .error "Sample data must be a non-empty array"
  else
    let contributions := sampleData.enum.map (fun p => rowChecks p.1 p.2)
    let issues := (contributions.map Prod.fst).flatten
    let warnings := (contributions.map Prod.snd).flatten
    .ok { validationPassed := issues.isEmpty,
          issues := issues,
          warnings := aggregateWarnings warnings }

/-! ## Specification-side definitions (for refinement claims) -/

/-- Spec reading of "present (non-blank, trimmed) part": the trimmed
part, kept only when non-blank. -/
def specPresentPart (s : String) : List String :=
  if jsTrim s = "" then [] else [jsTrim s]

/-- Spec reading of the address part list: street, apartment, city,
then state and postal joined as one unit by a single space (either may
be independently absent), then country — no empty placeholders. -/
def specAddressParts (street apartment city state postal country : String) :
    List String :=
  let statePostalUnit := specPresentPart state ++ specPresentPart postal
  specPresentPart street ++ specPresentPart apartment ++ specPresentPart city ++
  (if statePostalUnit.length > 0 then [joinWith " " statePostalUnit] else []) ++
  specPresentPart country

/-- Spec reading of one transformed entry, exactly as claimed: the
empty string when the mapping entry is **empty**, when the mapped
header does not occur in the headers, or when the row has no value at
the resolved index; otherwise the formatted cell. -/
def transformRowClaimed (mapping : List (String × String))
    (sourceHeaders : List String) (sourceRow : List JSValue) : List String :=
  STANDARD_COLUMNS.map (fun standardColumn =>
    match List.lookup standardColumn mapping with
    | none => ""
    | some sourceColumnName =>
      if sourceColumnName = "" then ""
      else if sourceColumnName ∈ sourceHeaders then
        match lastIndexOfHeader sourceHeaders sourceColumnName with
        | none => ""
        | some sourceIndex =>
          if sourceIndex < sourceRow.length then
            formatValue (sourceRow.getD sourceIndex JSValue.nul) sourceColumnName
          else ""
      else "")

/-- The amended reading of one transformed entry: as claimed, except
that a mapping entry consisting only of whitespace is also treated as
"no mapping" (the source trims the entry before testing it). -/
def transformRowAmendedSpec (mapping : List (String × String))
    (sourceHeaders : List String) (sourceRow : List JSValue) : List String :=
  STANDARD_COLUMNS.map (fun standardColumn =>
    match List.lookup standardColumn mapping with
    | none => ""
    | some sourceColumnName =>
      if jsTrim sourceColumnName = "" then ""
      else if sourceColumnName ∈ sourceHeaders then
        match lastIndexOfHeader sourceHeaders sourceColumnName with
        | none => ""
        | some sourceIndex =>
          if sourceIndex < sourceRow.length then
            formatValue (sourceRow.getD sourceIndex JSValue.nul) sourceColumnName
          else ""
      else "")

/-! ## Concrete inputs used by the claims -/

/-- The 10-field sample row of the validator test-property. -/
def c2SampleRow : List String :=
  ["2024-01-01", "John Smith", "35", "", "", "not-a-phone", "Widget", "abc",
   "2", "bad-email"]

/-- A 10-field row whose only defect is a malformed email. -/
def badEmailRow : List String :=
  ["", "", "", "", "", "", "", "", "", "bad-email"]

/-- A stored mapping whose `Date` entry is whitespace-only and whose
other entries are empty. -/
def blankDateMapping : List (String × String) :=
  STANDARD_COLUMNS.map (fun c => (c, if c = "Date" then " " else ""))

/-- A mapping with every canonical column explicitly unmapped. -/
def allEmptyMapping : List (String × String) :=
  STANDARD_COLUMNS.map (fun c => (c, ""))

/-! ## Helper lemmas -/

theorem jsTrim_empty : jsTrim "" = "" := rfl

theorem addrPresent_iff (s : String) : addrPresent s = true ↔ jsTrim s ≠ "" := by
  unfold addrPresent
  rw [Bool.and_eq_true, decide_eq_true_eq, decide_eq_true_eq]
  constructor
  · exact fun h => h.2
  · intro h
    exact ⟨fun e => h (by rw [e]; rfl), h⟩

theorem stringAppend_ne_empty_left (a b : String) (ha : a ≠ "") :
    a ++ b ≠ "" := by
  obtain ⟨la⟩ := a
  obtain ⟨lb⟩ := b
  intro h
  rw [show String.mk la ++ String.mk lb = String.mk (la ++ lb) from rfl,
    show ("" : String) = String.mk [] from rfl] at h
  injection h with h'
  exact ha (by rw [(List.append_eq_nil.mp h').1])

theorem presentPart_eq (s : String) :
    (if addrPresent s then [jsTrim s] else []) = specPresentPart s := by
  by_cases h : jsTrim s = ""
  · rw [if_neg, specPresentPart, if_pos h]
    simp [addrPresent_iff, h]
  · rw [if_pos, specPresentPart, if_neg h]
    exact (addrPresent_iff s).mpr h

theorem joinWith_ne_empty (sep : String) (l : List String) (hne : l ≠ [])
    (h : ∀ x ∈ l, x ≠ "") : joinWith sep l ≠ "" := by
  match l, hne with
  | [s], _ =>
    simpa [joinWith] using h s (by simp)
  | s :: t :: r, _ =>
    show s ++ sep ++ joinWith sep (t :: r) ≠ ""
    exact stringAppend_ne_empty_left _ _
      (stringAppend_ne_empty_left _ _ (h s (by simp)))

/-! ## Claim theorems -/

/-- C2: `validate` on the single sample row
`["2024-01-01","John Smith","35","","","not-a-phone","Widget","abc","2","bad-email"]`
succeeds and reports exactly one blocking issue (for Amount) and
warnings exactly for Email and Contact Number — none for Gender, Age or
Product Quantity. -/
theorem c2_validator_single_row :
    (validateExcelMapping [c2SampleRow]).map (fun r =>
      (r.validationPassed, r.issues.map VEntry.column,
       r.warnings.map VEntry.column)) =
    Except.ok (false, ["Amount"], ["Email", "Contact Number"]) := by rfl

/-- C1 (code evaluation): two rows carrying the identical malformed
email produce **two** separate Email warnings, each with a singleton
affected-row list — the aggregation step never merges entries from
distinct rows because its key `issue.split(':')[0]` is the row-specific
prefix `"Row N"`. -/
theorem c1_warnings_not_merged_across_rows :
    (validateExcelMapping [badEmailRow, badEmailRow]).map (fun r =>
      (r.warnings.map VEntry.column, r.warnings.map VEntry.affectedRows)) =
    Except.ok (["Email", "Email"], [[0], [1]]) := by rfl

/-- C10: the address reverse parser is total and returns the all-empty
six-component record on every input that is not a non-empty string
(null, undefined, numbers, booleans, dates, and the empty string). -/
theorem c10_parse_address_defensive (v : JSValue)
    (h : ∀ s : String, v = JSValue.str s → s = "") :
    parseAddress v = emptyAddressRecord := by
  cases v with
  | str s =>
    have hs : s = "" := h s rfl
    subst hs
    rfl
  | nul => rfl
  | boolv b => rfl
  | num q => rfl
  | date y m d => rfl

theorem c10_parse_address_defensive_witness :
    parseAddress JSValue.nul = emptyAddressRecord ∧
    parseAddress (JSValue.num 5) = emptyAddressRecord ∧
    parseAddress (JSValue.str "") = emptyAddressRecord :=
  ⟨c10_parse_address_defensive JSValue.nul (fun _ hs => JSValue.noConfusion hs),
   c10_parse_address_defensive (JSValue.num 5) (fun _ hs => JSValue.noConfusion hs),
   c10_parse_address_defensive (JSValue.str "")
     (fun s hs => by injection hs with h; exact h.symm)⟩

/-- C8: creating a column mapping fails with the missing-required-columns
(`InvalidMapping`) error when any canonical field is absent as a key,
and succeeds whenever all 10 keys are present — regardless of the
values, so in particular when some values are the empty string. -/
theorem c8_create_column_mapping (mapping : List (String × String)) :
    ((∃ c ∈ STANDARD_COLUMNS, mapping.any (fun kv => kv.1 == c) = false) →
      ∃ cols, createColumnMapping mapping =
        Except.error (CMError.missingRequired cols)) ∧
    ((∀ c ∈ STANDARD_COLUMNS, mapping.any (fun kv => kv.1 == c) = true) →
      ∃ r, createColumnMapping mapping = Except.ok r) := by
  constructor
  · rintro ⟨c, hc, hnone⟩
    have hmem : c ∈ STANDARD_COLUMNS.filter
        (fun col => !(mapping.any (fun kv => kv.1 == col))) :=
      List.mem_filter.mpr ⟨hc, by rw [hnone]; rfl⟩
    have hlen : 0 < (STANDARD_COLUMNS.filter
        (fun col => !(mapping.any (fun kv => kv.1 == col)))).length :=
      List.length_pos.mpr (List.ne_nil_of_mem hmem)
    refine ⟨STANDARD_COLUMNS.filter
      (fun col => !(mapping.any (fun kv => kv.1 == col))), ?_⟩
    simp only [createColumnMapping]
    rw [if_pos hlen]
  · intro hall
    have hfil : STANDARD_COLUMNS.filter
        (fun col => !(mapping.any (fun kv => kv.1 == col))) = [] := by
      rw [List.filter_eq_nil_iff]
      intro a ha
      simp [hall a ha]
    refine ⟨⟨((mapping.map Prod.snd).filter
        (fun val => val ≠ "" && jsTrim val ≠ "")).length,
      (STANDARD_COLUMNS.length : Int) - ((mapping.map Prod.snd).filter
        (fun val => val ≠ "" && jsTrim val ≠ "")).length⟩, ?_⟩
    simp only [createColumnMapping]
    rw [hfil, if_neg (by simp)]

theorem c8_create_column_mapping_witness :
    (∃ r, createColumnMapping allEmptyMapping = Except.ok r) ∧
    (∃ cols, createColumnMapping [("Date", "x")] =
      Except.error (CMError.missingRequired cols)) :=
  ⟨(c8_create_column_mapping allEmptyMapping).2 (by decide),
   (c8_create_column_mapping [("Date", "x")]).1 ⟨"Name", by decide, by decide⟩⟩

theorem specPresentPart_ne_empty (s : String) :
    ∀ x ∈ specPresentPart s, x ≠ "" := by
  intro x hx
  unfold specPresentPart at hx
  split_ifs at hx with h
  · exact absurd hx (List.not_mem_nil x)
  · rw [List.mem_singleton] at hx
    subst hx
    exact h

theorem specAddressParts_ne_empty (st ap ci sa po co : String) :
    ∀ p ∈ specAddressParts st ap ci sa po co, p ≠ "" := by
  intro p hp
  simp only [specAddressParts] at hp
  rcases List.mem_append.mp hp with hp1 | h
  · rcases List.mem_append.mp hp1 with hp2 | h
    · rcases List.mem_append.mp hp2 with hp3 | h
      · rcases List.mem_append.mp hp3 with h | h
        · exact specPresentPart_ne_empty st p h
        · exact specPresentPart_ne_empty ap p h
      · exact specPresentPart_ne_empty ci p h
    · split_ifs at h with hu
      · rw [List.mem_singleton] at h
        subst h
        refine joinWith_ne_empty " " _ (List.length_pos.mp hu) ?_
        intro x hx
        rcases List.mem_append.mp hx with h' | h'
        · exact specPresentPart_ne_empty sa x h'
        · exact specPresentPart_ne_empty po x h'
      · exact absurd h (List.not_mem_nil p)
  · exact specPresentPart_ne_empty co p h

/-- C9: the address combiner emits exactly the present (non-blank,
trimmed) parts in the fixed order street, apartment, city, the
state-postal pair joined as one unit by a single space, then country,
joined by `", "`; every emitted part is non-empty (no empty
placeholders, no doubled separators), and the documented example
combines to `"123 Main St, Apt 4, New York, NY 10001, USA"`. -/
theorem c9_consolidate_address :
    (∀ street apartment city state postal country : String,
      consolidateAddressFields street apartment city state postal country =
        joinWith ", "
          (specAddressParts street apartment city state postal country) ∧
      (specAddressParts street apartment city state postal country).all
        (fun p => p ≠ "") = true) ∧
    consolidateAddressFields "123 Main St" "Apt 4" "New York" "NY" "10001" "USA" =
      "123 Main St, Apt 4, New York, NY 10001, USA" := by
  refine ⟨fun street apartment city state postal country => ⟨?_, ?_⟩, by rfl⟩
  · simp only [consolidateAddressFields, presentPart_eq, specAddressParts,
      List.append_assoc]
  · rw [List.all_eq_true]
    intro p hp
    exact decide_eq_true
      (specAddressParts_ne_empty street apartment city state postal country p hp)

/-- C4: the classifier's verdict depends only on the first non-blank
sample value — any two non-empty value lists whose first surviving
values agree (in particular, lists obtained by dropping blanks or by
reordering/replacing everything after the first non-blank value)
classify identically. -/
theorem c4_infer_type_first_value (v1 v2 : List JSValue)
    (h1 : v1 ≠ []) (h2 : v2 ≠ [])
    (h : firstNonBlankCell v1 = firstNonBlankCell v2) :
    inferDataType v1 = inferDataType v2 := by
  unfold inferDataType
  rw [if_neg (by simp [h1]), if_neg (by simp [h2]), h]

theorem c4_infer_type_first_value_witness :
    ([JSValue.nul, JSValue.str "35"] : List JSValue) ≠ [] ∧
    ([JSValue.str "35", JSValue.str "zzz"] : List JSValue) ≠ [] ∧
    firstNonBlankCell [JSValue.nul, JSValue.str "35"] =
      firstNonBlankCell [JSValue.str "35", JSValue.str "zzz"] ∧
    inferDataType [JSValue.nul, JSValue.str "35"] =
      inferDataType [JSValue.str "35", JSValue.str "zzz"] :=
  ⟨by decide, by decide, by decide,
   c4_infer_type_first_value _ _ (by decide) (by decide) (by decide)⟩

theorem sortedDedup_pairwise (l : List Nat) :
    List.Pairwise (· < ·) (List.insertionSort (· ≤ ·) l.dedup) := by
  have hs : List.Sorted (· ≤ ·) (List.insertionSort (· ≤ ·) l.dedup) :=
    List.sorted_insertionSort _ _
  have hn : (List.insertionSort (· ≤ ·) l.dedup).Nodup :=
    ((List.perm_insertionSort (· ≤ ·) l.dedup).nodup_iff).mpr (List.nodup_dedup l)
  exact (hs.and hn).imp (fun hab => lt_of_le_of_ne hab.1 hab.2)

theorem sortedDedup_mem (l : List Nat) (x : Nat) :
    x ∈ List.insertionSort (· ≤ ·) l.dedup ↔ x ∈ l := by
  rw [List.mem_insertionSort, List.mem_dedup]

theorem sortedDedup_length (l : List Nat) :
    (List.insertionSort (· ≤ ·) l.dedup).length ≤ l.length := by
  rw [(List.perm_insertionSort (· ≤ ·) l.dedup).length_eq]
  exact (List.dedup_sublist l).length_le

theorem sampleInterior_length (totalRows sampleSize : Nat) :
    (sampleInterior totalRows sampleSize).length ≤ sampleSize - 2 := by
  unfold sampleInterior
  split_ifs
  · calc (((List.range (sampleSize - 2)).map
          (fun i => (i + 1) * (totalRows / (sampleSize - 2 + 1)))).filter
          (fun idx => idx < totalRows - 1)).length
        ≤ ((List.range (sampleSize - 2)).map
          (fun i => (i + 1) * (totalRows / (sampleSize - 2 + 1)))).length :=
          List.length_filter_le _ _
      _ = sampleSize - 2 := by rw [List.length_map, List.length_range]
  · simp

theorem sampleInterior_lt (totalRows sampleSize : Nat) :
    ∀ i ∈ sampleInterior totalRows sampleSize, i < totalRows - 1 := by
  intro i hi
  unfold sampleInterior at hi
  split_ifs at hi
  · exact of_decide_eq_true (List.mem_filter.mp hi).2
  · exact absurd hi (List.not_mem_nil i)

/-- C3: for `2 ≤ desired < total_rows` the sampler returns a strictly
increasing list of indices, all below `total_rows`, of length at most
`desired`, containing both `0` and `total_rows - 1`. -/
theorem c3_sample_indices (totalRows sampleSize : Nat)
    (hdes : 2 ≤ sampleSize) (hlt : sampleSize < totalRows) :
    List.Pairwise (· < ·) (calculateSampleIndices totalRows sampleSize) ∧
    (∀ i ∈ calculateSampleIndices totalRows sampleSize, i < totalRows) ∧
    (calculateSampleIndices totalRows sampleSize).length ≤ sampleSize ∧
    0 ∈ calculateSampleIndices totalRows sampleSize ∧
    totalRows - 1 ∈ calculateSampleIndices totalRows sampleSize := by
  have h0 : ¬ totalRows = 0 := by omega
  have hle : ¬ totalRows ≤ sampleSize := by omega
  have h1 : totalRows > 1 := by omega
  have hbody : calculateSampleIndices totalRows sampleSize =
      List.insertionSort (· ≤ ·)
        (0 :: sampleInterior totalRows sampleSize ++ [totalRows - 1]).dedup := by
    unfold calculateSampleIndices
    rw [if_neg h0, if_neg hle, if_pos h1]
  rw [hbody]
  refine ⟨sortedDedup_pairwise _, ?_, ?_, ?_, ?_⟩
  · intro i hi
    rw [sortedDedup_mem] at hi
    rcases List.mem_cons.mp hi with h | h
    · omega
    rcases List.mem_append.mp h with h | h
    · have := sampleInterior_lt totalRows sampleSize i h
      omega
    · rw [List.mem_singleton] at h
      omega
  · have hlen := sortedDedup_length
      (0 :: sampleInterior totalRows sampleSize ++ [totalRows - 1])
    have hint := sampleInterior_length totalRows sampleSize
    have hL : (0 :: sampleInterior totalRows sampleSize ++
        [totalRows - 1]).length =
        (sampleInterior totalRows sampleSize).length + 2 := by
      simp
    omega
  · rw [sortedDedup_mem]
    exact List.mem_cons_self _ _
  · rw [sortedDedup_mem]
    simp

theorem c3_sample_indices_witness :
    (2 ≤ 4 ∧ 4 < 10) ∧
    (List.Pairwise (· < ·) (calculateSampleIndices 10 4) ∧
     (∀ i ∈ calculateSampleIndices 10 4, i < 10) ∧
     (calculateSampleIndices 10 4).length ≤ 4 ∧
     0 ∈ calculateSampleIndices 10 4 ∧
     10 - 1 ∈ calculateSampleIndices 10 4) :=
  ⟨⟨by decide, by decide⟩, c3_sample_indices 10 4 (by decide) (by decide)⟩

theorem lastIndexOfHeader_eq_none_of_not_mem (headers : List String) (h : String)
    (hmem : ¬ h ∈ headers) : lastIndexOfHeader headers h = none := by
  unfold lastIndexOfHeader
  rw [Option.map_eq_none']
  have hfil : headers.enum.filter (fun p => p.2 == h) = [] := by
    rw [List.filter_eq_nil_iff]
    intro p hp hbeq
    apply hmem
    rw [← eq_of_beq hbeq]
    have h2 : p.2 ∈ headers.enum.map Prod.snd := List.mem_map_of_mem Prod.snd hp
    rwa [List.enum_map_snd] at h2
  rw [hfil]
  rfl

/-- C6 counterexample: with the stored mapping that sends `Date` to the
whitespace-only header `" "` (present in the headers, with a value in
the row), the transformer emits `""` where the claim requires the
formatted cell — a whitespace-only mapping entry is treated as "no
mapping". -/
theorem c6_transform_rows_counterexample :
    transformRows blankDateMapping [[JSValue.str "x"]] [" "] ≠
      [transformRowClaimed blankDateMapping [" "] [JSValue.str "x"]] := by
  decide

/-- C6 (amended): every successful transform emits, per source row,
exactly the 10 canonical entries in schema order, where an entry is
`""` when the mapping entry is empty **or whitespace-only**, when the
mapped header does not occur in the headers, or when the row has no
value at the resolved index, and the formatted cell otherwise. -/
theorem c6_transform_rows_amended (mapping : List (String × String))
    (sourceRows : List (List JSValue)) (sourceHeaders : List String) :
    transformRows mapping sourceRows sourceHeaders =
      sourceRows.map (transformRowAmendedSpec mapping sourceHeaders) ∧
    (transformRows mapping sourceRows sourceHeaders).all
      (fun r => r.length == 10) = true := by
  have hrow : ∀ row, transformRow mapping sourceHeaders row =
      transformRowAmendedSpec mapping sourceHeaders row := by
    intro row
    unfold transformRow transformRowAmendedSpec
    refine congrArg (fun f => List.map f STANDARD_COLUMNS) (funext fun col => ?_)
    rcases hlk : List.lookup col mapping with _ | s
    · simp only [hlk]
    · simp only [hlk]
      by_cases htr : jsTrim s = ""
      · simp [htr]
      · have hsne : ¬ s = "" := fun e => htr (by rw [e]; rfl)
        rw [if_neg (by simp [hsne, htr]), if_neg htr]
        by_cases hm : s ∈ sourceHeaders
        · rw [if_pos hm]
        · rw [if_neg hm, lastIndexOfHeader_eq_none_of_not_mem sourceHeaders s hm]
  constructor
  · unfold transformRows
    exact List.map_congr_left (fun row _ => hrow row)
  · rw [List.all_eq_true]
    intro r hr
    unfold transformRows at hr
    rcases List.mem_map.mp hr with ⟨row, _, rfl⟩
    unfold transformRow
    simp [STANDARD_COLUMNS]

/-- C5: the relationship detector reports a name split exactly when
distinct headers matched the First-Name and Last-Name roles, and in
every other situation (one role missing, or a single header matching
both roles) it reports `hasNameSplit = false` with all partial name
matches cleared. -/
theorem c5_name_split_invariant (headers : List String)
    (sampleRows : List (List String)) :
    ((analyzeColumnRelationships headers sampleRows).hasNameSplit = true ↔
      ∃ f l : String,
        findComponentHeader firstNameVariations headers = some f ∧
        findComponentHeader lastNameVariations headers = some l ∧ f ≠ l) ∧
    ((analyzeColumnRelationships headers sampleRows).hasNameSplit = false →
      (analyzeColumnRelationships headers sampleRows).nameComponents = []) := by
  rcases h1 : findComponentHeader firstNameVariations headers with _ | f
  · constructor
    · simp [analyzeColumnRelationships, h1]
    · intro _
      simp [analyzeColumnRelationships, h1]
  · rcases h2 : findComponentHeader lastNameVariations headers with _ | l
    · constructor
      · simp [analyzeColumnRelationships, h1, h2]
      · intro _
        simp [analyzeColumnRelationships, h1, h2]
    · constructor
      · simp [analyzeColumnRelationships, h1, h2]
      · intro hfalse
        by_cases hfl : f = l
        · simp [analyzeColumnRelationships, h1, h2, hfl]
        · have htrue : (analyzeColumnRelationships headers
              sampleRows).hasNameSplit = true := by
            simp [analyzeColumnRelationships, h1, h2, hfl]
          rw [htrue] at hfalse
          exact absurd hfalse (by simp)

theorem c5_name_split_invariant_witness :
    (analyzeColumnRelationships ["First Name"] []).nameComponents = [] ∧
    (analyzeColumnRelationships ["First Name", "Last Name"] []).hasNameSplit
      = true :=
  ⟨(c5_name_split_invariant ["First Name"] []).2 (by rfl),
   (c5_name_split_invariant ["First Name", "Last Name"] []).1.mpr
     ⟨"First Name", "Last Name", by rfl, by rfl, by decide⟩⟩

/-- C7: a numeric cell is rendered as an `"M/D/YYYY"` date if and only
if the column hint contains a date/time/timestamp keyword, contains
none of the ten numeric-domain keywords (age, amount, quantity, price,
cost, qty, count, number, units, total), and the number is strictly
between 0 and 100000 while being fractional or a whole number between
1 and 50000; the rendered date is the civil date lying `⌊q⌋` whole days
after the epoch day 1899-12-30, and in every other case the number is
emitted unchanged as text. -/
theorem c7_format_value_serial_date (q : ℚ) (hint : String) :
    formatValue (JSValue.num q) hint =
      if (strContains (jsToLower hint) "date" = true ∨
          strContains (jsToLower hint) "time" = true ∨
          strContains (jsToLower hint) "timestamp" = true) ∧
         ¬ (strContains (jsToLower hint) "age" = true ∨
            strContains (jsToLower hint) "amount" = true ∨
            strContains (jsToLower hint) "quantity" = true ∨
            strContains (jsToLower hint) "price" = true ∨
            strContains (jsToLower hint) "cost" = true ∨
            strContains (jsToLower hint) "qty" = true ∨
            strContains (jsToLower hint) "count" = true ∨
            strContains (jsToLower hint) "number" = true ∨
            strContains (jsToLower hint) "units" = true ∨
            strContains (jsToLower hint) "total" = true) ∧
         0 < q ∧ q < 100000 ∧ (q.den ≠ 1 ∨ (1 ≤ q ∧ q ≤ 50000))
      then mdyString (civilFromDays (daysFromCivil 1899 12 30 + Int.floor q))
      else jsNumToString q := by
  have hcond :
      ((strContains (jsToLower hint) "date" ||
        strContains (jsToLower hint) "time" ||
        strContains (jsToLower hint) "timestamp") &&
       !(strContains (jsToLower hint) "age" ||
         strContains (jsToLower hint) "amount" ||
         strContains (jsToLower hint) "quantity" ||
         strContains (jsToLower hint) "price" ||
         strContains (jsToLower hint) "cost" ||
         strContains (jsToLower hint) "qty" ||
         strContains (jsToLower hint) "count" ||
         strContains (jsToLower hint) "number" ||
         strContains (jsToLower hint) "units" ||
         strContains (jsToLower hint) "total") &&
       isExcelSerialDate q) = true ↔
      ((strContains (jsToLower hint) "date" = true ∨
        strContains (jsToLower hint) "time" = true ∨
        strContains (jsToLower hint) "timestamp" = true) ∧
       ¬ (strContains (jsToLower hint) "age" = true ∨
          strContains (jsToLower hint) "amount" = true ∨
          strContains (jsToLower hint) "quantity" = true ∨
          strContains (jsToLower hint) "price" = true ∨
          strContains (jsToLower hint) "cost" = true ∨
          strContains (jsToLower hint) "qty" = true ∨
          strContains (jsToLower hint) "count" = true ∨
          strContains (jsToLower hint) "number" = true ∨
          strContains (jsToLower hint) "units" = true ∨
          strContains (jsToLower hint) "total" = true) ∧
       0 < q ∧ q < 100000 ∧ (q.den ≠ 1 ∨ (1 ≤ q ∧ q ≤ 50000))) := by
    simp only [isExcelSerialDate, Bool.and_eq_true, Bool.or_eq_true,
      Bool.not_eq_true', Bool.eq_false_iff, Ne, not_or, decide_eq_true_eq,
      or_assoc, and_assoc]
  simp only [formatValue, excelSerialToDate]
  by_cases h :
      (strContains (jsToLower hint) "date" = true ∨
       strContains (jsToLower hint) "time" = true ∨
       strContains (jsToLower hint) "timestamp" = true) ∧
      ¬ (strContains (jsToLower hint) "age" = true ∨
         strContains (jsToLower hint) "amount" = true ∨
         strContains (jsToLower hint) "quantity" = true ∨
         strContains (jsToLower hint) "price" = true ∨
         strContains (jsToLower hint) "cost" = true ∨
         strContains (jsToLower hint) "qty" = true ∨
         strContains (jsToLower hint) "count" = true ∨
         strContains (jsToLower hint) "number" = true ∨
         strContains (jsToLower hint) "units" = true ∨
         strContains (jsToLower hint) "total" = true) ∧
      0 < q ∧ q < 100000 ∧ (q.den ≠ 1 ∨ (1 ≤ q ∧ q ≤ 50000))
  · rw [if_pos (hcond.mpr h), if_pos h]
  · rw [if_neg (fun hb => h (hcond.mp hb)), if_neg h]
